import Mathlib

/-!
Shallow embedding of the resource binding protocol of
strawberryfields/api_client.py: the APIClient, ResourceManager, Resource,
Field, Job, JobResult and JobCircuit classes, together with theorems
settling the specified properties of that module.

Conventions:
* Python None and JSON null are modeled as Option.none; non-null JSON
  scalars are JVal.
* Mutation of a Python object is modeled as explicit state passing.
* A raised Python exception is modeled as a some e component of an
  outcome; the state component is the object state at the moment the
  method returned or raised.
* The network is an oracle function from a request to Option Response;
  none models the request raising ConnectionError inside requests.
  Operations record the requests they issue, so that the absence of a
  network call is a provable statement.
-/

namespace SF

/-- Non-null JSON scalar values as they occur in request and response bodies. -/
inductive JVal where
  | jint (n : Int)
  | jstr (s : String)
  deriving DecidableEq, Repr

/-- Python str() on the values a Field can hold (api_client.py:354,
Field.__str__ returns str(self.value)); str(None) is the string None. -/
def pystr : Option JVal → String
  | none => "None"
  | some (.jint n) => toString n
  | some (.jstr s) => s

/-- join_path (api_client.py:81): urljoin of the base path given a trailing
slash with a relative path segment; on the plain relative segments this client
builds, it concatenates the two with a single slash. -/
def join_path (base_path path : String) : String :=
  base_path ++ "/" ++ path

/-- Field (api_client.py:339): a named slot holding a raw value; the class
attribute value = None makes a fresh field hold None. The stored clean
function is passed to cleaned_value explicitly, keeping the state
first-order. -/
structure Field where
  name : String
  value : Option JVal := none
  deriving DecidableEq, Repr

/-- Field.set (api_client.py:366): store the raw value verbatim. -/
def Field.set (f : Field) (v : Option JVal) : Field :=
  { f with value := v }

/-- Python Field.__bool__ (api_client.py:360): self.value is not None. -/
def Field.bool (f : Field) : Bool :=
  f.value.isSome

/-- Field.cleaned_value (api_client.py:372): self.clean(self.value) if
self.value is not None else None. The coercion functions attached in the
source (int, str, timestamp parsing) return a non-None value on every input
they accept, so a clean function is modeled as a total map on non-None
values. -/
def Field.cleaned_value (clean : JVal → JVal) (f : Field) : Option JVal :=
  match f.value with
  | none => none
  | some v => some (clean v)

/-- Python data.get(key, None) on a string-keyed JSON object, the object
modeled as an association list without duplicate keys: the stored value when
the key is present (a JSON null is stored as none), otherwise None. -/
def dict_get (data : List (String × Option JVal)) (key : String) : Option JVal :=
  match data.find? (fun kv => kv.1 = key) with
  | some kv => kv.2
  | none => none

/-- An HTTP response as the client consumes it: the requests status_code and
the already-decoded JSON object returned by response.json(). -/
structure Response where
  status_code : Nat
  body : List (String × Option JVal)
  deriving DecidableEq, Repr

/-- The state of a Resource (api_client.py:311): its SUPPORTED_METHODS, PATH
and declared fields. Attribute access resource.name is lookup of the field
with that name, matching the setattr binding done in Resource.__init__. -/
structure ResourceState where
  supported : List String
  path : String
  fields : List Field
  deriving DecidableEq, Repr

/-- The id attribute of a resource: the declared field named id, if any;
reading it on a resource with no such field raises AttributeError. -/
def ResourceState.idField (r : ResourceState) : Option Field :=
  r.fields.find? (fun f => f.name = "id")

/-- The state of a ResourceManager (api_client.py:220): the recorded status
code of the last handled response, and the owned resource. -/
structure ManagerState where
  http_status_code : Option Nat
  resource : ResourceState
  deriving DecidableEq, Repr

/-- The Python exceptions the embedded operations can raise. -/
inductive PyErr where
  | MethodNotSupportedException
  | ObjectAlreadyCreatedException
  | AttributeError (attr : String)
  | TypeError (msg : String)
  deriving DecidableEq, Repr

/-- The warnings.warn diagnostics emitted by the embedded operations. -/
inductive Warning where
  | CouldNotConnect
  | CouldNotReload
  deriving DecidableEq, Repr

/-- A network request issued through the APIClient. -/
inductive NetCall where
  | get (path : String)
  | post (path : String) (payload : List (String × Option JVal))
  deriving DecidableEq, Repr

/-- The outcome of a manager or resource operation: the exception raised if
any, the manager state when the operation returned or raised, and the network
requests and warnings it produced. -/
structure OpOutcome where
  err : Option PyErr
  state : ManagerState
  calls : List NetCall
  warns : List Warning
  deriving DecidableEq, Repr

/-- APIClient.get (api_client.py:194): issue the GET; a ConnectionError from
requests is caught, a could-not-connect warning emitted, and None returned. -/
def APIClient.get (rawGet : String → Option Response) (path : String) :
    Option Response × List Warning :=
  match rawGet path with
  | none => (none, [Warning.CouldNotConnect])
  | some r => (some r, [])

/-- APIClient.post (api_client.py:205): serialize the payload to JSON and
issue the POST; same ConnectionError contract as get. -/
def APIClient.post (rawPost : String → List (String × Option JVal) → Option Response)
    (path : String) (payload : List (String × Option JVal)) :
    Option Response × List Warning :=
  match rawPost path payload with
  | none => (none, [Warning.CouldNotConnect])
  | some r => (some r, [])

/-- ResourceManager.refresh_data (api_client.py:301): for every declared
field, field.set(data.get(field.name, None)). -/
def ResourceManager.refresh_data (r : ResourceState) (data : List (String × Option JVal)) :
    ResourceState :=
  { r with fields := r.fields.map (fun f => f.set (dict_get data f.name)) }

/-- ResourceManager.handle_success_response (api_client.py:281): refresh the
resource fields from the JSON body. -/
def ResourceManager.handle_success_response (m : ManagerState) (resp : Response) :
    ManagerState :=
  { m with resource := ResourceManager.refresh_data m.resource resp.body }

/-- ResourceManager.handle_error_response (api_client.py:287): the branch for
each classified status code is a pass statement, as is the implicit
fall-through for unlisted codes, so every branch returns the state
unchanged. -/
def ResourceManager.handle_error_response (m : ManagerState) (resp : Response) :
    ManagerState :=
  if resp.status_code = 400 then m
  else if resp.status_code = 401 then m
  else if resp.status_code = 409 then m
  else if resp.status_code = 500 ∨ resp.status_code = 503 ∨ resp.status_code = 504 then m
  else m

/-- ResourceManager.handle_response (api_client.py:270): store
response.status_code on the manager, then dispatch on it. When the client
returned None for a connection failure, reading None.status_code raises
AttributeError before any state is written. -/
def ResourceManager.handle_response (m : ManagerState) (response : Option Response) :
    Option PyErr × ManagerState :=
  match response with
  | none => (some (PyErr.AttributeError "status_code"), m)
  | some resp =>
    let m1 : ManagerState := { m with http_status_code := some resp.status_code }
    if resp.status_code = 200 ∨ resp.status_code = 201 then
      (none, ResourceManager.handle_success_response m1 resp)
    else
      (none, ResourceManager.handle_error_response m1 resp)

/-- ResourceManager.get (api_client.py:243): raise MethodNotSupportedException
when GET is not among the supported methods, before any network call;
otherwise GET the join of PATH and str(job_id) (the argument arrives here
already through Python str) and hand the response to handle_response. -/
def ResourceManager.get (m : ManagerState) (rawGet : String → Option Response)
    (job_id : String) : OpOutcome :=
  if "GET" ∉ m.resource.supported then
    { err := some PyErr.MethodNotSupportedException, state := m, calls := [], warns := [] }
  else
    let path := join_path m.resource.path job_id
    let rw := APIClient.get rawGet path
    let em := ResourceManager.handle_response m rw.1
    { err := em.1, state := em.2, calls := [NetCall.get path], warns := rw.2 }

/-- ResourceManager.create (api_client.py:255): raise
MethodNotSupportedException when POST is unsupported; then read
self.resource.id (AttributeError when the resource declares no id field) and
raise ObjectAlreadyCreatedException when it is truthy under Field.__bool__;
both checks precede the network call. Otherwise POST the params to the
resource PATH and hand the response to handle_response. -/
def ResourceManager.create (m : ManagerState)
    (rawPost : String → List (String × Option JVal) → Option Response)
    (params : List (String × Option JVal)) : OpOutcome :=
  if "POST" ∉ m.resource.supported then
    { err := some PyErr.MethodNotSupportedException, state := m, calls := [], warns := [] }
  else
    match m.resource.idField with
    | none => { err := some (PyErr.AttributeError "id"), state := m, calls := [], warns := [] }
    | some idf =>
      if idf.bool then
        { err := some PyErr.ObjectAlreadyCreatedException, state := m, calls := [], warns := [] }
      else
        let rw := APIClient.post rawPost m.resource.path params
        let em := ResourceManager.handle_response m rw.1
        { err := em.1, state := em.2, calls := [NetCall.post m.resource.path params],
          warns := rw.2 }

/-- Resource.reload (api_client.py:326): TypeError when the resource has no id
attribute; when the id field is truthy, delegate to manager.get(self.id),
where the Field passed through str() yields the str of its raw value;
otherwise emit a could-not-reload warning and do nothing. -/
def Resource.reload (m : ManagerState) (rawGet : String → Option Response) : OpOutcome :=
  match m.resource.idField with
  | none =>
    { err := some (PyErr.TypeError "Resource does not have an ID"), state := m,
      calls := [], warns := [] }
  | some idf =>
    if idf.bool then
      ResourceManager.get m rawGet (pystr idf.value)
    else
      { err := none, state := m, calls := [], warns := [Warning.CouldNotReload] }

/-- The resource part of a freshly constructed Job (api_client.py:381):
supported methods GET and POST, path jobs, and the eight declared fields, all
holding None. -/
def Job.initialResource : ResourceState :=
  { supported := ["GET", "POST"], path := "jobs",
    fields := [⟨"id", none⟩, ⟨"status", none⟩, ⟨"result_url", none⟩,
               ⟨"circuit_url", none⟩, ⟨"created_at", none⟩, ⟨"started_at", none⟩,
               ⟨"finished_at", none⟩, ⟨"running_time", none⟩] }

/-- A Job (api_client.py:381): the managed resource plus the result and
circuit attributes, both initialized to None in Job.__init__. -/
structure JobState where
  manager : ManagerState
  result : Option ManagerState
  circuit : Option ManagerState
  deriving DecidableEq, Repr

/-- A freshly constructed Job. -/
def Job.new : JobState :=
  { manager := { http_status_code := none, resource := Job.initialResource },
    result := none, circuit := none }

/-- A fetch on a Job through its manager. handle_success_response invokes the
refresh_data of the manager itself (api_client.py:285, self is the
ResourceManager there), so the Job.refresh_data method is not part of this
path and the result and circuit attributes are not touched by it. -/
def Job.manager_get (j : JobState) (rawGet : String → Option Response)
    (job_id : String) : OpOutcome × JobState :=
  let o := ResourceManager.get j.manager rawGet job_id
  (o, { j with manager := o.state })

/-- Job.refresh_data (api_client.py:409) begins with super().refresh_data();
the Resource base class defines no refresh_data method (refresh_data lives on
ResourceManager), so the call raises AttributeError at once and the code that
would attach JobResult and JobCircuit objects is unreachable. -/
def Job.refresh_data (j : JobState) : Option PyErr × JobState :=
  (some (PyErr.AttributeError "refresh_data"), j)

/-- A freshly constructed JobResult (api_client.py:423): GET only, the path
template with the parent job id formatted in at construction, and a single
result field. -/
def JobResult.new (job_id : String) : ManagerState :=
  { http_status_code := none,
    resource := { supported := ["GET"], path := "jobs/" ++ job_id ++ "/result",
                  fields := [⟨"result", none⟩] } }

/-- A freshly constructed JobCircuit (api_client.py:441): GET only, the path
template with the parent job id formatted in at construction, and a single
circuit field. -/
def JobCircuit.new (job_id : String) : ManagerState :=
  { http_status_code := none,
    resource := { supported := ["GET"], path := "jobs/" ++ job_id ++ "/circuit",
                  fields := [⟨"circuit", none⟩] } }

/-- The header state of an APIClient (api_client.py:148): __init__ stores the
header map in the attribute HEADERS; no attribute named headers is ever
created on the object. -/
structure APIClientState where
  HEADERS : List (String × String)
  deriving DecidableEq, Repr

/-- APIClient.set_authorization_header (api_client.py:181): the assignment
target is the item Authorization of self.headers, an attribute that does not
exist (the map lives in self.HEADERS), so evaluating self.headers raises
AttributeError and the header map is left unchanged. -/
def APIClient.set_authorization_header (c : APIClientState) (_token : String) :
    Option PyErr × APIClientState :=
  (some (PyErr.AttributeError "headers"), c)

/-- The request APIClient.get (api_client.py:199) issues: requests.get on the
joined url with headers taken from self.HEADERS. -/
structure HttpRequest where
  path : String
  headers : List (String × String)
  deriving DecidableEq, Repr

/-- The request that a subsequent APIClient.get call would send, with the
header map the client holds at that moment. -/
def APIClient.request_for_get (c : APIClientState) (path : String) : HttpRequest :=
  { path := path, headers := c.HEADERS }

/-- A transport on which every request fails with ConnectionError. -/
def failingTransport : String → Option Response :=
  fun _ => none

/-- A POST transport on which every request fails with ConnectionError. -/
def failingPostTransport : String → List (String × Option JVal) → Option Response :=
  fun _ _ => none

/-- A transport answering every GET with a 200 response carrying a job body
that populates id and status. -/
def jobOkTransport : String → Option Response :=
  fun _ => some { status_code := 200,
                  body := [("id", some (.jint 1)), ("status", some (.jstr "queued"))] }

/-- The resource part of a Job already populated from a create response:
id 1, status queued, the remaining fields None. -/
def Job.createdResource : ResourceState :=
  { supported := ["GET", "POST"], path := "jobs",
    fields := [⟨"id", some (.jint 1)⟩, ⟨"status", some (.jstr "queued")⟩,
               ⟨"result_url", none⟩, ⟨"circuit_url", none⟩, ⟨"created_at", none⟩,
               ⟨"started_at", none⟩, ⟨"finished_at", none⟩, ⟨"running_time", none⟩] }

/-- The manager of a populated Job, status code of the create recorded. -/
def Job.createdManager : ManagerState :=
  { http_status_code := some 201, resource := Job.createdResource }

/-- The manager of a Job whose id field holds the integer zero. -/
def Job.zeroIdManager : ManagerState :=
  { http_status_code := some 200,
    resource := { supported := ["GET", "POST"], path := "jobs",
                  fields := [⟨"id", some (.jint 0)⟩, ⟨"status", none⟩,
                             ⟨"result_url", none⟩, ⟨"circuit_url", none⟩,
                             ⟨"created_at", none⟩, ⟨"started_at", none⟩,
                             ⟨"finished_at", none⟩, ⟨"running_time", none⟩] } }

/-- The manager state of a Resource with the base class defaults
(api_client.py:317): no supported methods, empty path, no fields. -/
def bareResourceManager : ManagerState :=
  { http_status_code := none,
    resource := { supported := [], path := "", fields := [] } }

/-- handle_error_response returns its manager state unchanged: every branch
of the status classification is a pass. -/
theorem handle_error_response_eq (m : ManagerState) (resp : Response) :
    ResourceManager.handle_error_response m resp = m := by
  unfold ResourceManager.handle_error_response
  split_ifs <;> rfl

/-- C1: every status branch of the error classification is silent. On a
populated Job manager, handle_response at each of the statuses 400, 401, 409,
500, 503, 504 and at the unlisted status 418 raises nothing, produces no
error value, and only records the status code: the claimed ValidationError,
AuthenticationError, ConflictError, ServerError and UnexpectedStatusError
values are never produced by the code. -/
theorem c1_error_branches_all_silent :
    ResourceManager.handle_response Job.createdManager
        (some { status_code := 400, body := [("detail", some (.jstr "bad"))] })
      = (none, { Job.createdManager with http_status_code := some 400 })
    ∧ ResourceManager.handle_response Job.createdManager
        (some { status_code := 401, body := [("detail", some (.jstr "bad"))] })
      = (none, { Job.createdManager with http_status_code := some 401 })
    ∧ ResourceManager.handle_response Job.createdManager
        (some { status_code := 409, body := [("detail", some (.jstr "bad"))] })
      = (none, { Job.createdManager with http_status_code := some 409 })
    ∧ ResourceManager.handle_response Job.createdManager
        (some { status_code := 500, body := [("detail", some (.jstr "bad"))] })
      = (none, { Job.createdManager with http_status_code := some 500 })
    ∧ ResourceManager.handle_response Job.createdManager
        (some { status_code := 503, body := [("detail", some (.jstr "bad"))] })
      = (none, { Job.createdManager with http_status_code := some 503 })
    ∧ ResourceManager.handle_response Job.createdManager
        (some { status_code := 504, body := [("detail", some (.jstr "bad"))] })
      = (none, { Job.createdManager with http_status_code := some 504 })
    ∧ ResourceManager.handle_response Job.createdManager
        (some { status_code := 418, body := [("detail", some (.jstr "bad"))] })
      = (none, { Job.createdManager with http_status_code := some 418 }) := by
  decide

/-- C2: a connection failure during manager.get on a fresh Job leaves every
field untouched, but what reaches the caller is an AttributeError raised by
handle_response reading status_code on the absent response, after the
could-not-connect warning: no TransportError value exists or is produced. -/
theorem c2_connection_failure_raises_attribute_error :
    ResourceManager.get { http_status_code := none, resource := Job.initialResource }
        failingTransport "1"
      = { err := some (PyErr.AttributeError "status_code"),
          state := { http_status_code := none, resource := Job.initialResource },
          calls := [NetCall.get "jobs/1"],
          warns := [Warning.CouldNotConnect] } := by
  decide

/-- C3: refreshing a fresh Job through its manager from a 200 response that
populates the id field leaves both the result and the circuit attributes at
None: no JobResult or JobCircuit sub-resource is attached, even though the
fetch succeeded and the id field now holds 1. -/
theorem c3_refresh_attaches_no_subresources :
    ((Job.manager_get Job.new jobOkTransport "1").2.result = none
      ∧ (Job.manager_get Job.new jobOkTransport "1").2.circuit = none)
    ∧ (Job.manager_get Job.new jobOkTransport "1").2.manager.resource.idField
        = some ⟨"id", some (.jint 1)⟩
    ∧ (Job.manager_get Job.new jobOkTransport "1").1.err = none := by
  decide

/-- C4: set_authorization_header on a client raises AttributeError (the
assignment targets the nonexistent attribute headers rather than HEADERS),
the header map is unchanged, and a subsequent get still sends the old header
map, with no Authorization entry added. -/
theorem c4_set_authorization_header_raises :
    APIClient.set_authorization_header { HEADERS := [] } "my-token"
      = (some (PyErr.AttributeError "headers"), { HEADERS := [] })
    ∧ APIClient.request_for_get { HEADERS := [] } "jobs/1"
      = { path := "jobs/1", headers := [] } := by
  decide

/-- C5 counterexample: reload on a Job whose id field holds the integer zero
does perform a network call, a GET of jobs slash zero, because
Field.__bool__ tests value is not None rather than Python truthiness; the
claim that a zero id makes reload skip the network is false on the code. -/
theorem c5_counterexample_zero_id_fetches :
    (Resource.reload Job.zeroIdManager jobOkTransport).calls = [NetCall.get "jobs/0"] := by
  decide

/-- C5 amended: reload on a Resource that declares an id field whose raw
value is None performs no network call, raises nothing, and only emits the
could-not-reload warning; a zero or empty id counts as present and triggers
a normal fetch. -/
theorem c5_reload_noneid_is_noop (m : ManagerState) (rawGet : String → Option Response)
    (idf : Field) (h1 : m.resource.idField = some idf) (h2 : idf.value = none) :
    Resource.reload m rawGet
      = { err := none, state := m, calls := [], warns := [Warning.CouldNotReload] } := by
  unfold Resource.reload
  rw [h1]
  simp [Field.bool, h2]

/-- C5 witness: the amended statement at a fresh Job. -/
theorem c5_witness :
    Resource.reload { http_status_code := none, resource := Job.initialResource }
        failingTransport
      = { err := none,
          state := { http_status_code := none, resource := Job.initialResource },
          calls := [], warns := [Warning.CouldNotReload] } :=
  c5_reload_noneid_is_noop _ failingTransport ⟨"id", none⟩ (by decide) rfl

/-- C6: an operation outside the allowed set of a resource raises
MethodNotSupportedException before anything else happens: manager.get on a
resource not supporting GET, and manager.create on a resource not supporting
POST, each raise it, issue no network call, emit no warning and leave the
manager state unchanged. -/
theorem c6_unsupported_method_raises (m1 m2 : ManagerState)
    (rawGet : String → Option Response)
    (rawPost : String → List (String × Option JVal) → Option Response)
    (job_id : String) (params : List (String × Option JVal))
    (h1 : "GET" ∉ m1.resource.supported) (h2 : "POST" ∉ m2.resource.supported) :
    ResourceManager.get m1 rawGet job_id
      = { err := some PyErr.MethodNotSupportedException, state := m1,
          calls := [], warns := [] }
    ∧ ResourceManager.create m2 rawPost params
      = { err := some PyErr.MethodNotSupportedException, state := m2,
          calls := [], warns := [] } := by
  constructor
  · unfold ResourceManager.get
    rw [if_pos h1]
  · unfold ResourceManager.create
    rw [if_pos h2]

/-- C6 witness: a base Resource with no supported methods refuses GET, and a
JobResult refuses POST, each with no network call. -/
theorem c6_witness :
    ResourceManager.get bareResourceManager failingTransport "1"
      = { err := some PyErr.MethodNotSupportedException, state := bareResourceManager,
          calls := [], warns := [] }
    ∧ ResourceManager.create (JobResult.new "1") failingPostTransport []
      = { err := some PyErr.MethodNotSupportedException, state := JobResult.new "1",
          calls := [], warns := [] } :=
  c6_unsupported_method_raises bareResourceManager (JobResult.new "1")
    failingTransport failingPostTransport "1" [] (by decide) (by decide)

/-- C7: create on a resource that supports POST and whose id field is already
populated raises ObjectAlreadyCreatedException, issues no network call and
leaves the manager state, fields included, unchanged. -/
theorem c7_create_on_identified_raises (m : ManagerState)
    (rawPost : String → List (String × Option JVal) → Option Response)
    (params : List (String × Option JVal)) (idf : Field)
    (h1 : "POST" ∈ m.resource.supported) (h2 : m.resource.idField = some idf)
    (h3 : idf.bool = true) :
    ResourceManager.create m rawPost params
      = { err := some PyErr.ObjectAlreadyCreatedException, state := m,
          calls := [], warns := [] } := by
  unfold ResourceManager.create
  rw [if_neg (by simp [h1])]
  rw [h2]
  simp [h3]

/-- C7 witness: a populated Job, id 1, refuses a second create with no
network call. -/
theorem c7_witness :
    ResourceManager.create Job.createdManager failingPostTransport
        [("circuit", some (.jstr "program"))]
      = { err := some PyErr.ObjectAlreadyCreatedException, state := Job.createdManager,
          calls := [], warns := [] } :=
  c7_create_on_identified_raises Job.createdManager failingPostTransport
    [("circuit", some (.jstr "program"))] ⟨"id", some (.jint 1)⟩
    (by decide) (by decide) (by decide)

/-- C8: refresh_data is a total full replace over the declared schema: the
field names are preserved in order, every field of the result holds exactly
the payload entry for its name, absent when the key is missing, and the
result depends only on the payload entries at declared field names, so keys
matching no declared field are ignored. -/
theorem c8_refresh_data_full_replace (r : ResourceState)
    (data : List (String × Option JVal)) :
    ((ResourceManager.refresh_data r data).fields.map Field.name
        = r.fields.map Field.name)
    ∧ (∀ f ∈ (ResourceManager.refresh_data r data).fields,
        f.value = dict_get data f.name)
    ∧ ∀ data' : List (String × Option JVal),
        (∀ n ∈ r.fields.map Field.name, dict_get data n = dict_get data' n) →
        ResourceManager.refresh_data r data = ResourceManager.refresh_data r data' := by
  refine ⟨?_, ?_, ?_⟩
  · simp [ResourceManager.refresh_data, Field.set]
  · intro f hf
    simp only [ResourceManager.refresh_data, List.mem_map] at hf
    obtain ⟨a, _, rfl⟩ := hf
    simp [Field.set]
  · intro data' h
    unfold ResourceManager.refresh_data
    congr 1
    apply List.map_congr_left
    intro f hf
    have hn := h f.name (List.mem_map_of_mem Field.name hf)
    simp [Field.set, hn]

/-- C8 witness: refreshing a fresh Job from a payload carrying id and an
undeclared key gives the same state as refreshing from the payload with the
undeclared key dropped. -/
theorem c8_witness :
    ResourceManager.refresh_data Job.initialResource
        [("id", some (.jint 42)), ("unknown_key", some (.jstr "x"))]
      = ResourceManager.refresh_data Job.initialResource [("id", some (.jint 42))] :=
  (c8_refresh_data_full_replace Job.initialResource
      [("id", some (.jint 42)), ("unknown_key", some (.jstr "x"))]).2.2
    [("id", some (.jint 42))] (by decide)

/-- C9: cleaned_value is a pure derived read: it is absent exactly when the
raw value is absent, it equals clean of the raw value whenever one is
present, and after a set it reflects the new raw value, present or absent. -/
theorem c9_cleaned_value_deterministic (clean : JVal → JVal) (f : Field) :
    (Field.cleaned_value clean f = none ↔ f.value = none)
    ∧ (∀ v, f.value = some v → Field.cleaned_value clean f = some (clean v))
    ∧ (∀ v, Field.cleaned_value clean (f.set (some v)) = some (clean v))
    ∧ Field.cleaned_value clean (f.set none) = none := by
  refine ⟨?_, ?_, fun v => rfl, rfl⟩
  · unfold Field.cleaned_value
    cases f.value <;> simp
  · intro v hv
    unfold Field.cleaned_value
    rw [hv]

/-- An identity coercion, as on the status field of a Job. -/
def identityClean : JVal → JVal := fun v => v

/-- A status field holding the string complete. -/
def statusCompleteField : Field := ⟨"status", some (.jstr "complete")⟩

/-- C9 witness: a status field with identity coercion and raw value the
string complete reads back exactly that string. -/
theorem c9_witness :
    Field.cleaned_value identityClean statusCompleteField
      = some (JVal.jstr "complete") :=
  (c9_cleaned_value_deterministic identityClean statusCompleteField).2.1
    (JVal.jstr "complete") rfl

/-- C10: handle_response records the status code of every response it is
given, whatever the classification; and for every response whose status is
neither 200 nor 201 it raises nothing and changes nothing else: the resource
and all its fields, the id included, are returned unchanged. -/
theorem c10_handle_response_frame (m : ManagerState) (resp : Response) :
    (ResourceManager.handle_response m (some resp)).2.http_status_code
        = some resp.status_code
    ∧ (¬(resp.status_code = 200 ∨ resp.status_code = 201) →
        ResourceManager.handle_response m (some resp)
          = (none, { m with http_status_code := some resp.status_code })) := by
  constructor
  · simp only [ResourceManager.handle_response]
    split_ifs
    · rfl
    · rw [handle_error_response_eq]
  · intro h
    simp only [ResourceManager.handle_response]
    rw [if_neg h]
    rw [handle_error_response_eq]

/-- A 404 response. -/
def notFoundResponse : Response := { status_code := 404, body := [] }

/-- C10 witness: a 404 on a populated Job manager records the status and
leaves everything else, fields included, unchanged. -/
theorem c10_witness :
    ResourceManager.handle_response Job.createdManager (some notFoundResponse)
      = (none, { Job.createdManager with http_status_code := some 404 }) :=
  (c10_handle_response_frame Job.createdManager notFoundResponse).2 (by decide)

end SF
